import Mathlib

/-!
Verification development of the `splashcodex_api_manager` Python SDK core
(`core/manager.py`, `core/types.py`, `core/strategies.py`), shallowly embedded
in Lean 4.

Modelling conventions:
* Millisecond timestamps (`time.time() * 1000`) are natural numbers passed
  explicitly as a `now` argument; inside one retry attempt all reads of the
  clock are identified (`clock attempt`).
* Python `Optional[int]` fields become `Option Nat`; Python truthiness of such
  a field (`if k.failedAt:`) is `truthyN`, which is false for `none` and for
  `some 0`.
* Python floats (`weight`, latency fields) become `ℚ`.
* Mutation of `KeyState` objects held by `self.keys` becomes explicit state
  passing; Python object identity of a selected candidate is tracked by its
  index into the key list.
* `re.search` with `re.IGNORECASE` over the fixed patterns of
  `ERROR_PATTERNS` is implemented concretely: every pattern is an alternation
  of literal chunks where `.?` between chunks matches at most one arbitrary
  character; both the subject string and the (already lowercase) patterns are
  compared after `Char.toLower`.
* `list.sort` (a stable sort) is modelled by a stable insertion sort
  `sortByLe`.
* The default `StandardStrategy` is the modelled load-balancing strategy.
* The semantic cache sits before bulkhead admission and is bypassed here: the
  model covers the live path of `execute`.
* The user function `fn` is an oracle `Nat → String → Option PyError` giving,
  per attempt number and key, either success (`none`) or the raised error
  (with `asyncio.TimeoutError` already converted to the manager's
  `TimeoutError`, as lines 357-358 of `manager.py` do); `fallback_fn` is
  modelled by its presence (a `Bool`) and abstract outcomes.
-/

namespace SCX

/-- `CONFIG['MAX_CONSECUTIVE_FAILURES']`. -/
abbrev MAX_CONSECUTIVE_FAILURES : Nat := 5
/-- `CONFIG['COOLDOWN_TRANSIENT']` (60 s in ms). -/
abbrev COOLDOWN_TRANSIENT : Nat := 60 * 1000
/-- `CONFIG['COOLDOWN_QUOTA']` (5 min in ms). -/
abbrev COOLDOWN_QUOTA : Nat := 5 * 60 * 1000
/-- `CONFIG['COOLDOWN_QUOTA_DAILY']` (defined but unreferenced). -/
abbrev COOLDOWN_QUOTA_DAILY : Nat := 60 * 60 * 1000
/-- `CONFIG['HALF_OPEN_TEST_DELAY']`. -/
abbrev HALF_OPEN_TEST_DELAY : Nat := 60 * 1000
/-- `CONFIG['MAX_BACKOFF']`. -/
abbrev MAX_BACKOFF : Nat := 64 * 1000
/-- `CONFIG['BASE_BACKOFF']`. -/
abbrev BASE_BACKOFF : Nat := 1000

/-- `types.CircuitState`. -/
inductive CircuitState
  | CLOSED
  | OPEN
  | HALF_OPEN
  | DEAD
deriving DecidableEq, BEq, Repr

/-- `types.ErrorType`. -/
inductive ErrorType
  | QUOTA
  | TRANSIENT
  | AUTH
  | BAD_REQUEST
  | SAFETY
  | RECITATION
  | TIMEOUT
  | UNKNOWN
deriving DecidableEq, BEq, Repr

/-- `types.ErrorClassification`. -/
structure ErrorClassification where
  type : ErrorType
  retryable : Bool
  cooldownMs : Nat
  markKeyFailed : Bool
  markKeyDead : Bool
deriving DecidableEq, Repr

/-- `types.KeyState` (pydantic model; floats as `ℚ`). -/
structure KeyState where
  key : String
  failCount : Nat := 0
  failedAt : Option Nat := none
  isQuotaError : Bool := false
  circuitState : CircuitState := .CLOSED
  lastUsed : Nat := 0
  successCount : Nat := 0
  totalRequests : Nat := 0
  halfOpenTestTime : Option Nat := none
  customCooldown : Option Nat := none
  weight : ℚ := 1
  averageLatency : ℚ := 0
  totalLatency : ℚ := 0
  latencySamples : Nat := 0
  provider : String := "default"
deriving DecidableEq, Repr

/-- A fresh key as built by `ApiKeyManager.__init__` from an input record. -/
def initKey (key : String) (weight : ℚ) (provider : String) : KeyState :=
  { key := key, weight := weight, provider := provider }

/-- Python truthiness of an `Optional[int]`: `None` and `0` are falsy. -/
def truthyN : Option Nat → Bool
  | none => false
  | some n => n != 0

/-! ### Error model and the pattern matcher backing `ERROR_PATTERNS` -/

/-- The raised error as `classify_error` observes it: `str(error)`, the
`status_code` / `status` attributes, an optional truthy `response` carrying
`status_code`, and whether the error `isinstance(error, TimeoutError)`. -/
structure PyError where
  message : String := ""
  statusCode : Option Int := none
  statusAttr : Option Int := none
  responseStatus : Option Int := none
  isTimeoutInstance : Bool := false
deriving DecidableEq, Repr

/-- Status extraction of `classify_error` lines 150-155: `status_code`, else
`status`, overridden by `error.response.status_code` when a truthy `response`
is present. -/
def resolveStatus (e : PyError) : Option Int :=
  match e.responseStatus with
  | some s => some s
  | none =>
    match e.statusCode with
    | some s => some s
    | none => e.statusAttr

/-- Match a sequence of literal chunks (separated by `.?`, i.e. at most one
arbitrary character between consecutive chunks) at the head of `s`. -/
def matchChunksFrom : List (List Char) → List Char → Bool
  | [], _ => true
  | c :: cs, s =>
    c.isPrefixOf s &&
      (match cs with
       | [] => true
       | _ :: _ =>
         let rest := s.drop c.length
         matchChunksFrom cs rest ||
           (match rest with
            | [] => false
            | _ :: r => matchChunksFrom cs r))

/-- `re.search` of one alternative: try every start position. -/
def searchAnywhere (chunks : List (List Char)) : List Char → Bool
  | [] => matchChunksFrom chunks []
  | c :: r => matchChunksFrom chunks (c :: r) || searchAnywhere chunks r

/-- `re.search` of an alternation of chunked alternatives. -/
def patternSearch (alts : List (List (List Char))) (s : List Char) : Bool :=
  alts.any (fun a => searchAnywhere a s)

/-- Lowercased character list of a string (ASCII case folding, standing for
`re.IGNORECASE` / `str.lower()`). -/
def lowerStr (s : String) : List Char :=
  s.toList.map Char.toLower

/-- Turn a pattern written as alternatives of `.?`-separated literal chunks
into character lists. -/
def mkPat (alts : List (List String)) : List (List (List Char)) :=
  alts.map (fun a => a.map String.toList)

/-- `ERROR_PATTERNS['isQuotaError']`. -/
def isQuotaErrorPat : List (List (List Char)) :=
  mkPat [["429"], ["quota"], ["exhausted"], ["resource", "exhausted"],
         ["too", "many", "requests"], ["rate", "limit"]]

/-- `ERROR_PATTERNS['isAuthError']`. -/
def isAuthErrorPat : List (List (List Char)) :=
  mkPat [["403"], ["permission", "denied"], ["invalid", "api", "key"],
         ["unauthorized"], ["unauthenticated"]]

/-- `ERROR_PATTERNS['isTransient']`. -/
def isTransientPat : List (List (List Char)) :=
  mkPat [["500"], ["502"], ["503"], ["504"], ["internal"], ["unavailable"],
         ["deadline"], ["timeout"], ["overloaded"]]

/-- `ERROR_PATTERNS['isBadRequest']`. -/
def isBadRequestPat : List (List (List Char)) :=
  mkPat [["400"], ["invalid", "argument"], ["failed", "precondition"],
         ["malformed"], ["not", "found"], ["404"]]

/-- `'timeout' in error_str.lower()`. -/
def containsTimeoutWord (s : List Char) : Bool :=
  searchAnywhere ["timeout".toList] s

/-- `status in [500, 502, 503, 504]` (a `None` status is in no list). -/
def statusIn (status : Option Int) (l : List Int) : Bool :=
  match status with
  | some s => l.contains s
  | none => false

/-- `ApiKeyManager.classify_error` (manager.py lines 149-177). -/
def classify_error (error : PyError) (finish_reason : Option String) :
    ErrorClassification :=
  let error_str := lowerStr error.message
  let status := resolveStatus error
  if finish_reason == some "SAFETY" then
    ⟨.SAFETY, false, 0, false, false⟩
  else if finish_reason == some "RECITATION" then
    ⟨.RECITATION, false, 0, false, false⟩
  else if error.isTimeoutInstance || containsTimeoutWord error_str then
    ⟨.TIMEOUT, true, COOLDOWN_TRANSIENT, true, false⟩
  else if status == some 403 || patternSearch isAuthErrorPat error_str then
    ⟨.AUTH, false, 999999999, true, true⟩
  else if status == some 429 || patternSearch isQuotaErrorPat error_str then
    ⟨.QUOTA, true, COOLDOWN_QUOTA, true, false⟩
  else if status == some 400 || patternSearch isBadRequestPat error_str then
    ⟨.BAD_REQUEST, false, 0, false, false⟩
  else if statusIn status [500, 502, 503, 504] ||
      patternSearch isTransientPat error_str then
    ⟨.TRANSIENT, true, COOLDOWN_TRANSIENT, true, false⟩
  else
    ⟨.UNKNOWN, true, COOLDOWN_TRANSIENT, true, false⟩

/-! ### Manager state and the circuit-breaker operations -/

/-- The mutable portion of `ApiKeyManager` the core operations touch: the key
registry, the bulkhead counter, and `max_concurrency` (`none` stands for the
default `float('inf')`). -/
structure Manager where
  keys : List KeyState
  activeCalls : Nat := 0
  maxConcurrency : Option Nat := none
deriving DecidableEq, Repr

/-- `ApiKeyManager._is_on_cooldown` (lines 179-199): besides the verdict it
returns the possibly updated key, since an eligible OPEN key is transitioned
to HALF_OPEN in place. -/
def isOnCooldown (now : Nat) (k : KeyState) : Bool × KeyState :=
  if k.circuitState = .DEAD then (true, k)
  else if k.circuitState = .OPEN then
    if truthyN k.halfOpenTestTime ∧ k.halfOpenTestTime.getD 0 ≤ now then
      (false, { k with circuitState := .HALF_OPEN })
    else (true, k)
  else if truthyN k.failedAt then
    let fa := k.failedAt.getD 0
    if truthyN k.customCooldown ∧ now - fa < k.customCooldown.getD 0 then
      (true, k)
    else
      let cooldown := if k.isQuotaError then COOLDOWN_QUOTA else COOLDOWN_TRANSIENT
      if now - fa < cooldown then (true, k) else (false, k)
  else (false, k)

/-- One step of the candidate comprehension of `get_key` (line 202):
`k.circuitState != DEAD and not self._is_on_cooldown(k)`, short-circuiting so
DEAD keys are not scanned; second component is candidacy. -/
def scanKey (now : Nat) (k : KeyState) : KeyState × Bool :=
  if k.circuitState = .DEAD then (k, false)
  else
    let r := isOnCooldown now k
    (r.2, !r.1)

/-- The candidate comprehension applied to the whole registry. -/
def cooldownScan (now : Nat) (keys : List KeyState) : List (KeyState × Bool) :=
  keys.map (scanKey now)

/-- The candidate comprehension of `get_key_by_provider` (line 220), guarded
by the provider tag first. -/
def cooldownScanProvider (now : Nat) (provider : String) (keys : List KeyState) :
    List (KeyState × Bool) :=
  keys.map (fun k => if k.provider = provider then scanKey now k else (k, false))

/-- Collect candidates with their registry indices (Python object identity
becomes the index into `self.keys`). -/
def candidatesFrom : Nat → List (KeyState × Bool) → List (Nat × KeyState)
  | _, [] => []
  | i, (k, b) :: rest =>
    if b then (i, k) :: candidatesFrom (i + 1) rest
    else candidatesFrom (i + 1) rest

/-- The indexed candidate list of a scan. -/
def candidatesOf (scanned : List (KeyState × Bool)) : List (Nat × KeyState) :=
  candidatesFrom 0 scanned

/-- Stable ordered insert for a boolean `≤`-style comparison. -/
def insertLe (le : α → α → Bool) (x : α) : List α → List α
  | [] => [x]
  | y :: ys => if le x y then x :: y :: ys else y :: insertLe le x ys

/-- Stable insertion sort, modelling Python's stable `list.sort`. -/
def sortByLe (le : α → α → Bool) : List α → List α
  | [] => []
  | x :: xs => insertLe le x (sortByLe le xs)

/-- The sort key of `StandardStrategy.next`: lexicographic `(failCount,
lastUsed)` comparison of the underlying keys. -/
def stdLe (a b : Nat × KeyState) : Bool :=
  decide (a.2.failCount < b.2.failCount ∨
    (a.2.failCount = b.2.failCount ∧ a.2.lastUsed ≤ b.2.lastUsed))

/-- `StandardStrategy.next` (strategies.py): sort candidates by `(failCount,
lastUsed)` and pick the first; `None` on an empty list. -/
def standardNext (candidates : List (Nat × KeyState)) : Option (Nat × KeyState) :=
  match candidates with
  | [] => none
  | _ :: _ => (sortByLe stdLe candidates).head?

/-- The sort key of the empty-eligible fallback (line 209):
`x.failedAt or 0`. -/
def failedAtLe (a b : KeyState) : Bool :=
  decide (a.failedAt.getD 0 ≤ b.failedAt.getD 0)

/-- `ApiKeyManager.get_key` (lines 201-217) acting on the key registry;
returns the selected key string (if any) and the updated registry. -/
def get_key_core (now : Nat) (keys : List KeyState) :
    Option String × List KeyState :=
  let scanned := cooldownScan now keys
  let keys2 := scanned.map Prod.fst
  match candidatesOf scanned with
  | [] =>
    let nonDead := keys2.filter (fun k => !(k.circuitState == .DEAD))
    match nonDead with
    | [] => (none, keys2)
    | _ :: _ => ((sortByLe failedAtLe nonDead).head?.map (fun k => k.key), keys2)
  | c :: cs =>
    match standardNext (c :: cs) with
    | some sel => (some sel.2.key, keys2.set sel.1 { sel.2 with lastUsed := now })
    | none => (none, keys2)

/-- `ApiKeyManager.get_key` on the manager. -/
def get_key (now : Nat) (m : Manager) : Option String × Manager :=
  let r := get_key_core now m.keys
  (r.1, { m with keys := r.2 })

/-- `ApiKeyManager.get_key_by_provider` (lines 219-229) acting on the key
registry: same strategy path, but no empty-eligible fallback. -/
def get_key_by_provider_core (now : Nat) (provider : String)
    (keys : List KeyState) : Option String × List KeyState :=
  let scanned := cooldownScanProvider now provider keys
  let keys2 := scanned.map Prod.fst
  match candidatesOf scanned with
  | [] => (none, keys2)
  | c :: cs =>
    match standardNext (c :: cs) with
    | some sel => (some sel.2.key, keys2.set sel.1 { sel.2 with lastUsed := now })
    | none => (none, keys2)

/-- `ApiKeyManager.get_key_by_provider` on the manager. -/
def get_key_by_provider (now : Nat) (provider : String) (m : Manager) :
    Option String × Manager :=
  let r := get_key_by_provider_core now provider m.keys
  (r.1, { m with keys := r.2 })

/-- Apply `f` to the first element satisfying `p` (Python
`next((x for x in self.keys if x.key == key), None)` followed by in-place
mutation; no match leaves the list unchanged). -/
def updateFirst (p : α → Bool) (f : α → α) : List α → List α
  | [] => []
  | x :: xs => if p x then f x :: xs else x :: updateFirst p f xs

/-- The per-key body of `ApiKeyManager.mark_success` (lines 236-252). -/
def markSuccessKey (duration_ms : Option Nat) (k : KeyState) : KeyState :=
  let k1 := { k with
    circuitState := CircuitState.CLOSED
    failCount := 0
    failedAt := none
    isQuotaError := false
    customCooldown := none
    successCount := k.successCount + 1
    totalRequests := k.totalRequests + 1 }
  match duration_ms with
  | some d =>
    let tl : ℚ := k1.totalLatency + (d : ℚ)
    let ls : Nat := k1.latencySamples + 1
    { k1 with totalLatency := tl, latencySamples := ls,
              averageLatency := tl / (ls : ℚ) }
  | none => k1

/-- `ApiKeyManager.mark_success` (lines 231-254). -/
def mark_success (key : String) (duration_ms : Option Nat) (m : Manager) :
    Manager :=
  { m with
    keys := updateFirst (fun x => x.key == key) (markSuccessKey duration_ms) m.keys }

/-- The per-key body of `ApiKeyManager.mark_failed` (lines 258-281),
including its guards: DEAD keys and classifications with
`markKeyFailed=False` are untouched. -/
def markFailedKey (now : Nat) (classification : ErrorClassification)
    (k : KeyState) : KeyState :=
  if k.circuitState = .DEAD then k
  else if !classification.markKeyFailed then k
  else
    let k1 := { k with
      failedAt := some now
      failCount := k.failCount + 1
      totalRequests := k.totalRequests + 1
      isQuotaError := classification.type == ErrorType.QUOTA
      customCooldown :=
        if classification.cooldownMs ≠ 0 then some classification.cooldownMs
        else none }
    if classification.markKeyDead then
      { k1 with circuitState := CircuitState.DEAD }
    else if k1.circuitState = .HALF_OPEN then
      { k1 with circuitState := CircuitState.OPEN
                halfOpenTestTime := some (now + HALF_OPEN_TEST_DELAY) }
    else if MAX_CONSECUTIVE_FAILURES ≤ k1.failCount ∨
        classification.type = ErrorType.QUOTA then
      { k1 with circuitState := CircuitState.OPEN
                halfOpenTestTime := some (now +
                  (if classification.cooldownMs ≠ 0 then classification.cooldownMs
                   else HALF_OPEN_TEST_DELAY)) }
    else k1

/-- `ApiKeyManager.mark_failed` (lines 256-283). -/
def mark_failed (now : Nat) (key : String)
    (classification : ErrorClassification) (m : Manager) : Manager :=
  { m with
    keys := updateFirst (fun x => x.key == key) (markFailedKey now classification) m.keys }

/-- `ApiKeyManager.calculate_backoff` (lines 285-290), with the
`random.uniform(0, 1000)` draw passed in as `jitter`. -/
def calculate_backoff (attempt : Nat) (jitter : ℚ) : ℚ :=
  let exponential : ℚ := (BASE_BACKOFF : ℚ) * 2 ^ attempt
  let capped := min exponential (MAX_BACKOFF : ℚ)
  capped + jitter

/-! ### The execute orchestrator -/

/-- `types.ExecuteOptions` (the fields the live path reads; `timeoutMs` only
shapes the oracle's errors, `prompt` only matters to the bypassed cache). -/
structure ExecuteOptions where
  timeoutMs : Option Nat := none
  maxRetries : Nat := 0
  finishReason : Option String := none
  provider : Option String := none
  prompt : Option String := none
deriving DecidableEq, Repr

/-- How a `_execute_with_retry` call ends. -/
inductive ExecOutcome
  | success (attempt : Nat)
  | fallbackUsed (reason : String)
  | allKeysExhausted
  | raised (attempt : Nat)
  | raisedLastError
deriving DecidableEq, Repr

/-- Result of the retry loop: how it ended, the manager state, and the
attempt numbers at which `fn` was invoked, in order. -/
structure RunResult where
  outcome : ExecOutcome
  mgr : Manager
  calls : List Nat
deriving DecidableEq, Repr

/-- Key selection at the head of each attempt (line 332):
`self.get_key_by_provider(options.provider) if options.provider else
self.get_key()`; an empty provider string is falsy in Python. -/
def selectKey (now : Nat) (opts : ExecuteOptions) (m : Manager) :
    Option String × Manager :=
  match opts.provider with
  | some p => if p = "" then get_key now m else get_key_by_provider now p m
  | none => get_key now m

/-- The body of `_execute_with_retry` (lines 328-376). `attempt` is the loop
index, the second `Nat` the remaining iterations of
`range(options.maxRetries + 1)`; exhausting them corresponds to the trailing
`raise last_error`. `fb` is whether a `fallback_fn` is configured; `oracle`
gives the result of `fn` per (attempt, key); `dur` the measured duration of a
successful attempt; `clock` the wall time during the attempt. -/
def executeRetryAux (fb : Bool) (oracle : Nat → String → Option PyError)
    (dur : Nat → Nat) (clock : Nat → Nat) (opts : ExecuteOptions) :
    Nat → Nat → Manager → RunResult
  | _, 0, m => ⟨.raisedLastError, m, []⟩
  | attempt, r + 1, m =>
    let now := clock attempt
    let sel := selectKey now opts m
    match sel.1 with
    | none =>
      if fb then ⟨.fallbackUsed "all keys exhausted", sel.2, []⟩
      else ⟨.allKeysExhausted, sel.2, []⟩
    | some key =>
      match oracle attempt key with
      | none =>
        ⟨.success attempt, mark_success key (some (dur attempt)) sel.2, [attempt]⟩
      | some e =>
        let cls := classify_error e opts.finishReason
        let m2 := mark_failed now key cls sel.2
        if cls.retryable = false ∨ opts.maxRetries ≤ attempt then
          if fb = true ∧ opts.maxRetries ≤ attempt then
            ⟨.fallbackUsed "max retries exceeded", m2, [attempt]⟩
          else ⟨.raised attempt, m2, [attempt]⟩
        else
          let res := executeRetryAux fb oracle dur clock opts (attempt + 1) r m2
          ⟨res.outcome, res.mgr, attempt :: res.calls⟩

/-- `ApiKeyManager._execute_with_retry`: the loop starts at attempt 0 with
`options.maxRetries + 1` iterations available. -/
def executeWithRetry (fb : Bool) (oracle : Nat → String → Option PyError)
    (dur : Nat → Nat) (clock : Nat → Nat) (opts : ExecuteOptions)
    (m : Manager) : RunResult :=
  executeRetryAux fb oracle dur clock opts 0 (opts.maxRetries + 1) m

/-- The bulkhead admission test of `execute` (line 313):
`self.active_calls >= self.max_concurrency` rejects; `float('inf')`
(`none`) never rejects. -/
def bulkheadAdmitN (max : Option Nat) (active : Nat) : Bool :=
  match max with
  | none => true
  | some c => active < c

/-- Admission test on the manager state. -/
def bulkheadAdmit (m : Manager) : Bool :=
  bulkheadAdmitN m.maxConcurrency m.activeCalls

/-- How `execute` ends: rejected at the bulkhead, or completed with a retry
loop outcome. -/
inductive ExecuteOutcome
  | bulkheadRejected
  | completed (o : ExecOutcome)
deriving DecidableEq, Repr

/-- Result of `execute` on the live path. -/
structure ExecResult where
  outcome : ExecuteOutcome
  mgr : Manager
  calls : List Nat
deriving DecidableEq, Repr

/-- `ApiKeyManager.execute` (lines 292-326), live path: admission check
before any key selection, increment, retry loop, decrement in `finally` on
every exit path. -/
def execute (fb : Bool) (oracle : Nat → String → Option PyError)
    (dur : Nat → Nat) (clock : Nat → Nat) (opts : ExecuteOptions)
    (m : Manager) : ExecResult :=
  if bulkheadAdmit m then
    let m1 := { m with activeCalls := m.activeCalls + 1 }
    let r := executeWithRetry fb oracle dur clock opts m1
    ⟨.completed r.outcome, { r.mgr with activeCalls := r.mgr.activeCalls - 1 }, r.calls⟩
  else ⟨.bulkheadRejected, m, []⟩

/-- One event of interleaved `execute` calls as seen by the bulkhead counter:
`true` is a call hitting the admission check (incrementing only when
admitted, line 313-317), `false` a call leaving through the `finally`
decrement (line 326). -/
def bulkheadStep (max : Option Nat) (n : Nat) (ev : Bool) : Nat :=
  if ev then (if bulkheadAdmitN max n then n + 1 else n) else n - 1

/-- The bulkhead counter after a sequence of interleaved events. -/
def bulkheadRun (max : Option Nat) (evs : List Bool) (n : Nat) : Nat :=
  evs.foldl (bulkheadStep max) n

/-! ### Spec-side descriptions (for refinement-style claims) -/

/-- One classification rule as §4.1 of the spec words it: a guard over the
error and the finish reason, and the classification it yields. -/
structure ClassifyRule where
  guard : PyError → Option String → Bool
  out : ErrorClassification

/-- First matching rule wins; no match falls through to the default. -/
def firstMatch : List ClassifyRule → ErrorClassification → PyError →
    Option String → ErrorClassification
  | [], dflt, _, _ => dflt
  | r :: rs, dflt, e, fr =>
    if r.guard e fr then r.out else firstMatch rs dflt e fr

/-- The seven guarded rules of the spec's classifier, in the spec's fixed
order (rule 8, UNKNOWN, is the default of `classifySpecRules`). -/
def specClassifyRules : List ClassifyRule :=
  [⟨fun _ fr => fr == some "SAFETY", ⟨.SAFETY, false, 0, false, false⟩⟩,
   ⟨fun _ fr => fr == some "RECITATION", ⟨.RECITATION, false, 0, false, false⟩⟩,
   ⟨fun e _ => e.isTimeoutInstance || containsTimeoutWord (lowerStr e.message),
    ⟨.TIMEOUT, true, COOLDOWN_TRANSIENT, true, false⟩⟩,
   ⟨fun e _ => resolveStatus e == some 403 ||
      patternSearch isAuthErrorPat (lowerStr e.message),
    ⟨.AUTH, false, 999999999, true, true⟩⟩,
   ⟨fun e _ => resolveStatus e == some 429 ||
      patternSearch isQuotaErrorPat (lowerStr e.message),
    ⟨.QUOTA, true, COOLDOWN_QUOTA, true, false⟩⟩,
   ⟨fun e _ => resolveStatus e == some 400 ||
      patternSearch isBadRequestPat (lowerStr e.message),
    ⟨.BAD_REQUEST, false, 0, false, false⟩⟩,
   ⟨fun e _ => statusIn (resolveStatus e) [500, 502, 503, 504] ||
      patternSearch isTransientPat (lowerStr e.message),
    ⟨.TRANSIENT, true, COOLDOWN_TRANSIENT, true, false⟩⟩]

/-- The classifier as the spec describes it: the eight rules applied in fixed
order, first match winning. -/
def classifySpecRules (e : PyError) (fr : Option String) : ErrorClassification :=
  firstMatch specClassifyRules ⟨.UNKNOWN, true, COOLDOWN_TRANSIENT, true, false⟩ e fr

/-- The cooldown verdict as the code actually computes it, written as one
boolean formula (the amended form of the `_is_on_cooldown` description: after
an expired `customCooldown` the default cooldown is still applied, and an
OPEN key with an unset `halfOpenTestTime` stays on cooldown). -/
def onCooldownSpec (now : Nat) (k : KeyState) : Bool :=
  decide (k.circuitState = CircuitState.DEAD) ||
  (decide (k.circuitState = CircuitState.OPEN) &&
    !(truthyN k.halfOpenTestTime && decide (k.halfOpenTestTime.getD 0 ≤ now))) ||
  (!decide (k.circuitState = CircuitState.DEAD) &&
   !decide (k.circuitState = CircuitState.OPEN) &&
   truthyN k.failedAt &&
   ((truthyN k.customCooldown &&
      decide (now - k.failedAt.getD 0 < k.customCooldown.getD 0)) ||
    decide (now - k.failedAt.getD 0 <
      (if k.isQuotaError then COOLDOWN_QUOTA else COOLDOWN_TRANSIENT))))

/-! ### Concrete inputs used by counterexamples and witnesses -/

/-- An error exposing `status_code = 403` (AUTH, non-retryable, marks dead). -/
def authErr : PyError := { statusCode := some 403 }

/-- An error exposing `status_code = 500` (TRANSIENT, retryable). -/
def transientErr : PyError := { statusCode := some 500 }

/-- A one-key registry as `ApiKeyManager(['A'])` builds it. -/
def oneKeyMgr : Manager := { keys := [initKey "A" 1 "default"] }

/-- `oneKeyMgr` after an AUTH failure at t=1000: its key is DEAD. -/
def deadKeyMgr : Manager :=
  mark_failed 1000 "A" (classify_error authErr none) oneKeyMgr

/-- A key whose `customCooldown` (1000 ms) has already expired at t=3000
while the default transient cooldown has not. -/
def customCooldownKey : KeyState :=
  { initKey "A" 1 "default" with failedAt := some 1000, customCooldown := some 1000 }

/-- A one-key registry whose key is non-DEAD but on transient cooldown at
t=2000 (failed at t=1000). -/
def coolingMgr : Manager :=
  { keys := [{ initKey "A" 1 "default" with failedAt := some 1000 }] }

/-- A one-key registry for provider `g` whose key is non-DEAD but on
transient cooldown at t=2000. -/
def coolingProviderMgr : Manager :=
  { keys := [{ initKey "A" 1 "g" with failedAt := some 1000 }] }

/-! ## Theorems -/

/-- Claim C6 (confirmed): `classify_error` applies the eight classification
rules of §4.1 in the fixed order with first match winning — SAFETY and
RECITATION finish reasons; timeout instance or "timeout" in the message →
TIMEOUT retryable, cooldown 60000, markKeyFailed; status 403 or auth pattern
→ AUTH non-retryable, markKeyFailed, markKeyDead; status 429 or quota
pattern → QUOTA retryable, cooldown 300000, markKeyFailed; status 400 or
bad-request pattern → BAD_REQUEST non-retryable with no key-health flags;
status in {500, 502, 503, 504} or transient pattern → TRANSIENT retryable,
cooldown 60000, markKeyFailed; otherwise UNKNOWN retryable, cooldown 60000,
markKeyFailed. The code equals the ordered rule table on every input. -/
theorem classify_error_eq_spec_rules :
    ∀ (e : PyError) (fr : Option String),
      classify_error e fr = classifySpecRules e fr :=
  fun _ _ => rfl

/-- Claim C9 (confirmed): for every attempt `a` and jitter draw
`j ∈ [0, 1000]`, `calculate_backoff a j = min (1000 * 2 ^ a) 64000 + j`,
hence the delay lies in `[min (1000 * 2 ^ a) 64000,
min (1000 * 2 ^ a) 64000 + 1000]`; the jitter is additive on every
attempt. -/
theorem calculate_backoff_range (a : Nat) (j : ℚ) (h0 : 0 ≤ j)
    (h1 : j ≤ 1000) :
    calculate_backoff a j = min ((1000 : ℚ) * 2 ^ a) 64000 + j ∧
    min ((1000 : ℚ) * 2 ^ a) 64000 ≤ calculate_backoff a j ∧
    calculate_backoff a j ≤ min ((1000 : ℚ) * 2 ^ a) 64000 + 1000 := by
  have he : calculate_backoff a j = min ((1000 : ℚ) * 2 ^ a) 64000 + j := by
    simp [calculate_backoff, BASE_BACKOFF, MAX_BACKOFF]
  refine ⟨he, ?_, ?_⟩ <;> rw [he] <;> linarith

/-- Witness for C9 at `a = 3`, `j = 500`. -/
theorem calculate_backoff_range_witness :
    calculate_backoff 3 500 = min ((1000 : ℚ) * 2 ^ 3) 64000 + 500 ∧
    min ((1000 : ℚ) * 2 ^ 3) 64000 ≤ calculate_backoff 3 500 ∧
    calculate_backoff 3 500 ≤ min ((1000 : ℚ) * 2 ^ 3) 64000 + 1000 :=
  calculate_backoff_range 3 500 (by norm_num) (by norm_num)

/-- Claim C3 (code bug): `circuitState = DEAD` is not terminal under
`mark_success` — after an AUTH failure makes the single key DEAD, a direct
`mark_success('A', 5)` transitions it back to CLOSED (`mark_failed` guards
DEAD, `mark_success` does not). -/
theorem mark_success_revives_dead_key :
    deadKeyMgr.keys.map (fun k => k.circuitState) = [CircuitState.DEAD] ∧
    (mark_success "A" (some 5) deadKeyMgr).keys.map (fun k => k.circuitState) =
      [CircuitState.CLOSED] := by
  decide

/-- Counterexample to claim C4 as stated: a key whose `customCooldown`
(1000 ms) has expired at t=3000 (elapsed 2000 ≥ 1000) is still reported on
cooldown, because the default transient cooldown is additionally applied. -/
theorem cooldown_default_applies_after_custom_expiry :
    customCooldownKey.customCooldown = some 1000 ∧
    customCooldownKey.failedAt = some 1000 ∧
    1000 ≤ 3000 - 1000 ∧
    (isOnCooldown 3000 customCooldownKey).1 = true := by
  decide

/-- Claim C4 (corrected): `_is_on_cooldown` returns true exactly when the key
is DEAD, or it is OPEN and not yet eligible for the lazy HALF_OPEN probe
(unset `halfOpenTestTime` included), or `failedAt` is truthy and the elapsed
time is below `customCooldown` (when truthy) **or** below the default
cooldown (`COOLDOWN_QUOTA` if `isQuotaError` else `COOLDOWN_TRANSIENT`) —
the default is applied even when a set `customCooldown` has expired; the
OPEN→HALF_OPEN transition is performed exactly when the key is OPEN with a
truthy `halfOpenTestTime ≤ now`. -/
theorem isOnCooldown_characterization (now : Nat) (k : KeyState) :
    (isOnCooldown now k).1 = onCooldownSpec now k ∧
    (isOnCooldown now k).2 =
      (if k.circuitState = CircuitState.OPEN ∧ truthyN k.halfOpenTestTime ∧
          k.halfOpenTestTime.getD 0 ≤ now
       then { k with circuitState := CircuitState.HALF_OPEN }
       else k) := by
  obtain ⟨key, fc, fa, q, cs, lu, sc, tr, hot, cc, w, al, tl, ls, pv⟩ := k
  cases cs <;>
    simp only [isOnCooldown, onCooldownSpec] <;>
    split_ifs <;>
    simp_all <;>
    (cases htr : truthyN hot <;> simp_all)

/-- Counterexample to claim C5 as stated: a fresh CLOSED key that suffers a
single transient failure (status 500) stays CLOSED (the threshold is 5) yet
has `failCount = 1` and `failedAt` set. -/
theorem closed_key_with_positive_failCount :
    (classify_error transientErr none).type = ErrorType.TRANSIENT ∧
    (mark_failed 5000 "A" (classify_error transientErr none) oneKeyMgr).keys.map
      (fun k => (k.circuitState, k.failCount, k.failedAt)) =
      [(CircuitState.CLOSED, 1, some 5000)] := by
  decide

lemma updateFirst_exists {α : Type} {p : α → Bool} {f : α → α} {l : List α}
    (h : ∃ a ∈ l, p a = true) :
    ∃ a, p a = true ∧ f a ∈ updateFirst p f l := by
  induction l with
  | nil => simp at h
  | cons x xs ih =>
    by_cases hx : p x = true
    · exact ⟨x, hx, by simp [updateFirst, hx]⟩
    · obtain ⟨a, hmem, hpa⟩ := h
      rcases List.mem_cons.mp hmem with hax | haxs
      · exact absurd (hax ▸ hpa) hx
      · obtain ⟨a, hpa2, hmem2⟩ := ih ⟨a, haxs, hpa⟩
        exact ⟨a, hpa2, by simp [updateFirst, hx, hmem2]⟩

lemma markSuccessKey_fields (duration_ms : Option Nat) (k : KeyState) :
    (markSuccessKey duration_ms k).key = k.key ∧
    (markSuccessKey duration_ms k).circuitState = CircuitState.CLOSED ∧
    (markSuccessKey duration_ms k).failCount = 0 ∧
    (markSuccessKey duration_ms k).failedAt = none := by
  cases duration_ms <;> simp [markSuccessKey]

/-- Claim C5 (corrected): the invariant "CLOSED implies `failCount = 0` and
`failedAt` absent" holds immediately after a success is recorded, not after
every operation: `mark_success` always leaves the matched key CLOSED with
`failCount = 0` and no `failedAt`, but a failure below the 5-failure
threshold with a non-QUOTA retryable classification leaves the circuit
CLOSED while setting `failCount = 1` and `failedAt`. -/
theorem mark_success_restores_closed_invariant (duration_ms : Option Nat)
    (key : String) (m : Manager) (k0 : KeyState) (hmem : k0 ∈ m.keys)
    (hkey : k0.key == key) :
    ((markSuccessKey duration_ms k0).circuitState = CircuitState.CLOSED ∧
     (markSuccessKey duration_ms k0).failCount = 0 ∧
     (markSuccessKey duration_ms k0).failedAt = none) ∧
    ∃ k1 ∈ (mark_success key duration_ms m).keys,
      k1.key = key ∧ k1.circuitState = CircuitState.CLOSED ∧
      k1.failCount = 0 ∧ k1.failedAt = none := by
  obtain ⟨hk, hc, hf, ha⟩ := markSuccessKey_fields duration_ms k0
  refine ⟨⟨hc, hf, ha⟩, ?_⟩
  obtain ⟨a, hpa, hmem2⟩ :=
    updateFirst_exists (p := fun x => x.key == key)
      (f := markSuccessKey duration_ms) ⟨k0, hmem, hkey⟩
  obtain ⟨hk2, hc2, hf2, ha2⟩ := markSuccessKey_fields duration_ms a
  refine ⟨markSuccessKey duration_ms a, ?_, ?_, hc2, hf2, ha2⟩
  · simpa [mark_success] using hmem2
  · rw [hk2]
    exact eq_of_beq hpa

/-- Witness for C5's amended theorem on the one-key registry. -/
theorem mark_success_restores_closed_invariant_witness :
    ((markSuccessKey (some 5) (initKey "A" 1 "default")).circuitState =
       CircuitState.CLOSED ∧
     (markSuccessKey (some 5) (initKey "A" 1 "default")).failCount = 0 ∧
     (markSuccessKey (some 5) (initKey "A" 1 "default")).failedAt = none) ∧
    ∃ k1 ∈ (mark_success "A" (some 5) oneKeyMgr).keys,
      k1.key = "A" ∧ k1.circuitState = CircuitState.CLOSED ∧
      k1.failCount = 0 ∧ k1.failedAt = none :=
  mark_success_restores_closed_invariant (some 5) "A" oneKeyMgr
    (initKey "A" 1 "default") (by decide) (by decide)

/-- Counterexample to claim C2 as stated: with a fallback configured and
`maxRetries = 0`, a non-retryable AUTH failure on the final attempt does NOT
re-raise — the user fallback is invoked (reason "max retries exceeded"). -/
theorem fallback_engaged_on_nonretryable_final_attempt :
    (classify_error authErr none).retryable = false ∧
    (executeWithRetry true (fun _ _ => some authErr) (fun _ => 0)
        (fun _ => 1000) {} oneKeyMgr).outcome =
      ExecOutcome.fallbackUsed "max retries exceeded" := by
  decide

/-- Claim C2 (corrected): a non-retryable classification terminates the retry
loop immediately at the failing attempt (no further `fn` invocation), but the
raised error is re-raised only when no fallback is configured or the failure
happened before the final attempt; when a fallback is configured and the
attempt index has reached `maxRetries`, the fallback is invoked instead —
also for non-retryable terminations. -/
theorem nonretryable_terminates_retry_loop (fb : Bool)
    (oracle : Nat → String → Option PyError) (dur clock : Nat → Nat)
    (opts : ExecuteOptions) (a r : Nat) (m : Manager) (key : String)
    (e : PyError) (h1 : (selectKey (clock a) opts m).1 = some key)
    (h2 : oracle a key = some e)
    (h3 : (classify_error e opts.finishReason).retryable = false) :
    (executeRetryAux fb oracle dur clock opts a (r + 1) m).calls = [a] ∧
    (executeRetryAux fb oracle dur clock opts a (r + 1) m).outcome =
      (if fb = true ∧ opts.maxRetries ≤ a
       then ExecOutcome.fallbackUsed "max retries exceeded"
       else ExecOutcome.raised a) := by
  simp only [executeRetryAux, h1, h2]
  rw [if_pos (Or.inl h3)]
  split <;> simp

/-- Witness for C2's amended theorem: AUTH failure at attempt 0 with
`maxRetries = 0` and a fallback configured. -/
theorem nonretryable_terminates_retry_loop_witness :
    (executeRetryAux true (fun _ _ => some authErr) (fun _ => 0)
        (fun _ => 1000) {} 0 1 oneKeyMgr).calls = [0] ∧
    (executeRetryAux true (fun _ _ => some authErr) (fun _ => 0)
        (fun _ => 1000) {} 0 1 oneKeyMgr).outcome =
      (if true = true ∧ ExecuteOptions.maxRetries {} ≤ 0
       then ExecOutcome.fallbackUsed "max retries exceeded"
       else ExecOutcome.raised 0) :=
  nonretryable_terminates_retry_loop true (fun _ _ => some authErr)
    (fun _ => 0) (fun _ => 1000) {} 0 0 oneKeyMgr "A" authErr
    (by decide) rfl (by decide)

lemma executeRetryAux_calls_length (fb : Bool)
    (oracle : Nat → String → Option PyError) (dur clock : Nat → Nat)
    (opts : ExecuteOptions) :
    ∀ (r a : Nat) (m : Manager),
      (executeRetryAux fb oracle dur clock opts a r m).calls.length ≤ r := by
  intro r
  induction r with
  | zero => intro a m; simp [executeRetryAux]
  | succ n ih =>
    intro a m
    simp only [executeRetryAux]
    split
    · split <;> simp
    · split
      · simp
      · split
        · split <;> simp
        · simp only [List.length_cons]
          exact Nat.succ_le_succ (ih _ _)

lemma executeRetryAux_calls_lb (fb : Bool)
    (oracle : Nat → String → Option PyError) (dur clock : Nat → Nat)
    (opts : ExecuteOptions) :
    ∀ (r a : Nat) (m : Manager) (x : Nat),
      x ∈ (executeRetryAux fb oracle dur clock opts a r m).calls → a ≤ x := by
  intro r
  induction r with
  | zero => intro a m x hx; simp [executeRetryAux] at hx
  | succ n ih =>
    intro a m x hx
    simp only [executeRetryAux] at hx
    split at hx
    · split at hx <;> simp at hx
    · split at hx
      · simp at hx
        omega
      · split at hx
        · split at hx <;> (simp at hx; omega)
        · simp only [List.mem_cons] at hx
          rcases hx with hx | hx
          · omega
          · have := ih (a + 1) _ x hx
            omega

lemma executeRetryAux_calls_nodup (fb : Bool)
    (oracle : Nat → String → Option PyError) (dur clock : Nat → Nat)
    (opts : ExecuteOptions) :
    ∀ (r a : Nat) (m : Manager),
      (executeRetryAux fb oracle dur clock opts a r m).calls.Nodup := by
  intro r
  induction r with
  | zero => intro a m; simp [executeRetryAux]
  | succ n ih =>
    intro a m
    simp only [executeRetryAux]
    split
    · split <;> simp
    · split
      · simp
      · split
        · split <;> simp
        · refine List.nodup_cons.mpr ⟨fun hmem => ?_, ih (a + 1) _⟩
          have := executeRetryAux_calls_lb fb oracle dur clock opts n (a + 1) _ a hmem
          omega

/-- Claim C1 (confirmed): a `_execute_with_retry` run invokes `fn` at most
`maxRetries + 1` times in total and at most once per attempt (the list of
attempt indices at which `fn` ran has length at most `maxRetries + 1` and
contains no attempt twice); with the default `maxRetries = 0`, a call whose
first key selection succeeds (the live path reaches `fn`) invokes `fn`
exactly once, at attempt 0. -/
theorem execute_fn_invocation_bound (fb : Bool)
    (oracle : Nat → String → Option PyError) (dur clock : Nat → Nat)
    (opts : ExecuteOptions) (m : Manager) :
    (executeWithRetry fb oracle dur clock opts m).calls.length ≤
      opts.maxRetries + 1 ∧
    (∀ a, (executeWithRetry fb oracle dur clock opts m).calls.count a ≤ 1) ∧
    (opts.maxRetries = 0 → ∀ key, (selectKey (clock 0) opts m).1 = some key →
      (executeWithRetry fb oracle dur clock opts m).calls = [0]) := by
  refine ⟨executeRetryAux_calls_length fb oracle dur clock opts _ 0 m,
    fun a => List.nodup_iff_count_le_one.mp
      (executeRetryAux_calls_nodup fb oracle dur clock opts _ 0 m) a, ?_⟩
  intro h0 key hsel
  simp only [executeWithRetry, h0, executeRetryAux, hsel]
  rcases h2 : oracle 0 key with _ | e
  · rfl
  · dsimp only
    split
    · split <;> rfl
    · rfl

/-- Witness for C1 on a fresh one-key registry with an always-succeeding
`fn` and default options (`maxRetries = 0`). -/
theorem execute_fn_invocation_bound_witness :
    (executeWithRetry false (fun _ _ => none) (fun _ => 7) (fun _ => 1000) {}
      oneKeyMgr).calls = [0] :=
  (execute_fn_invocation_bound false (fun _ _ => none) (fun _ => 7)
    (fun _ => 1000) {} oneKeyMgr).2.2 rfl "A" (by decide)

lemma get_key_activeCalls (now : Nat) (m : Manager) :
    ((get_key now m).2).activeCalls = m.activeCalls := rfl

lemma get_key_by_provider_activeCalls (now : Nat) (p : String) (m : Manager) :
    ((get_key_by_provider now p m).2).activeCalls = m.activeCalls := rfl

lemma selectKey_activeCalls (now : Nat) (opts : ExecuteOptions) (m : Manager) :
    ((selectKey now opts m).2).activeCalls = m.activeCalls := by
  rcases hp : opts.provider with _ | p <;> simp only [selectKey, hp]
  · rfl
  · split <;> rfl

lemma mark_success_activeCalls (key : String) (d : Option Nat) (m : Manager) :
    (mark_success key d m).activeCalls = m.activeCalls := rfl

lemma mark_failed_activeCalls (now : Nat) (key : String)
    (cls : ErrorClassification) (m : Manager) :
    (mark_failed now key cls m).activeCalls = m.activeCalls := rfl

lemma executeRetryAux_activeCalls (fb : Bool)
    (oracle : Nat → String → Option PyError) (dur clock : Nat → Nat)
    (opts : ExecuteOptions) :
    ∀ (r a : Nat) (m : Manager),
      ((executeRetryAux fb oracle dur clock opts a r m).mgr).activeCalls =
        m.activeCalls := by
  intro r
  induction r with
  | zero => intro a m; rfl
  | succ n ih =>
    intro a m
    simp only [executeRetryAux]
    split
    · split <;> simp [selectKey_activeCalls]
    · split
      · simp [mark_success_activeCalls, selectKey_activeCalls]
      · split
        · split <;> simp [mark_failed_activeCalls, selectKey_activeCalls]
        · dsimp only
          rw [ih]
          simp [mark_failed_activeCalls, selectKey_activeCalls]

lemma bulkheadRun_le (c : Nat) :
    ∀ (evs : List Bool) (n : Nat), n ≤ c → bulkheadRun (some c) evs n ≤ c := by
  intro evs
  induction evs with
  | nil => intro n h; simpa [bulkheadRun] using h
  | cons ev rest ih =>
    intro n h
    simp only [bulkheadRun, List.foldl_cons]
    apply ih
    cases ev <;>
      simp [bulkheadStep, bulkheadAdmitN] <;>
      (try split) <;>
      omega

/-- Claim C7 (confirmed): the bulkhead counter never exceeds
`maxConcurrency` along any interleaving of admission checks and exits
starting from 0; a call failing the admission check returns
`BulkheadRejection` with the manager untouched — no key selected, `fn` not
invoked; an admitted call restores `activeCalls` on its exit path; and with
`maxConcurrency = 0` every live-path call is rejected at the bulkhead
without invoking `fn`. -/
theorem bulkhead_respected (c : Nat) (evs : List Bool) (fb : Bool)
    (oracle : Nat → String → Option PyError) (dur clock : Nat → Nat)
    (opts : ExecuteOptions) (m1 : Manager) (h1 : bulkheadAdmit m1 = false)
    (m2 : Manager) (h2 : bulkheadAdmit m2 = true) (m3 : Manager)
    (h3 : m3.maxConcurrency = some 0) :
    bulkheadRun (some c) evs 0 ≤ c ∧
    execute fb oracle dur clock opts m1 =
      ⟨ExecuteOutcome.bulkheadRejected, m1, []⟩ ∧
    (execute fb oracle dur clock opts m2).mgr.activeCalls = m2.activeCalls ∧
    (execute fb oracle dur clock opts m3).outcome =
      ExecuteOutcome.bulkheadRejected ∧
    (execute fb oracle dur clock opts m3).calls = [] := by
  have hm3 : bulkheadAdmit m3 = false := by
    simp [bulkheadAdmit, h3, bulkheadAdmitN]
  refine ⟨bulkheadRun_le c evs 0 (Nat.zero_le c), ?_, ?_, ?_, ?_⟩
  · simp [execute, h1]
  · simp only [execute, h2, if_true, executeWithRetry]
    rw [executeRetryAux_activeCalls]
    simp
  · simp [execute, hm3]
  · simp [execute, hm3]

/-- Witness for C7: a rejecting manager (`maxConcurrency = 0`), an admitting
manager, and a two-admissions-one-exit event trace under cap 1. -/
theorem bulkhead_respected_witness :
    bulkheadRun (some 1) [true, true, false] 0 ≤ 1 ∧
    execute false (fun _ _ => none) (fun _ => 0) (fun _ => 0) {}
        { keys := [], maxConcurrency := some 0 } =
      ⟨ExecuteOutcome.bulkheadRejected, { keys := [], maxConcurrency := some 0 }, []⟩ ∧
    (execute false (fun _ _ => none) (fun _ => 0) (fun _ => 0) {}
        oneKeyMgr).mgr.activeCalls = oneKeyMgr.activeCalls ∧
    (execute false (fun _ _ => none) (fun _ => 0) (fun _ => 0) {}
        { keys := [], maxConcurrency := some 0 }).outcome =
      ExecuteOutcome.bulkheadRejected ∧
    (execute false (fun _ _ => none) (fun _ => 0) (fun _ => 0) {}
        { keys := [], maxConcurrency := some 0 }).calls = [] :=
  bulkhead_respected 1 [true, true, false] false (fun _ _ => none)
    (fun _ => 0) (fun _ => 0) {} { keys := [], maxConcurrency := some 0 }
    (by decide) oneKeyMgr (by decide) { keys := [], maxConcurrency := some 0 }
    rfl

/-- Counterexample to claim C8 as stated: at t=2000 the single non-DEAD key
(failed at t=1000) is on cooldown, so `get_key` returns it through the
empty-eligible fallback — but its `lastUsed` stays 0: the fallback branch
returns the key without setting `lastUsed` to the current time. -/
theorem get_key_fallback_skips_lastUsed :
    (get_key 2000 coolingMgr).1 = some "A" ∧
    ((get_key 2000 coolingMgr).2).keys.map (fun k => k.lastUsed) = [0] := by
  decide

lemma insertLe_mem {α : Type} (le : α → α → Bool) (x y : α) (l : List α) :
    y ∈ insertLe le x l ↔ y = x ∨ y ∈ l := by
  induction l with
  | nil => simp [insertLe]
  | cons z zs ih =>
    simp only [insertLe]
    split
    · simp [List.mem_cons]
    · simp only [List.mem_cons, ih]
      tauto

lemma sortByLe_mem {α : Type} (le : α → α → Bool) (x : α) (l : List α) :
    x ∈ sortByLe le l ↔ x ∈ l := by
  induction l with
  | nil => simp [sortByLe]
  | cons z zs ih => simp [sortByLe, insertLe_mem, ih]

lemma standardNext_mem (c : Nat × KeyState) (cs : List (Nat × KeyState)) :
    ∃ sel, standardNext (c :: cs) = some sel ∧ sel ∈ c :: cs := by
  simp only [standardNext]
  rcases hs : sortByLe stdLe (c :: cs) with _ | ⟨hd, tl⟩
  · exfalso
    have hc : c ∈ sortByLe stdLe (c :: cs) :=
      (sortByLe_mem stdLe c (c :: cs)).mpr (List.mem_cons_self c cs)
    rw [hs] at hc
    simp at hc
  · refine ⟨hd, rfl, ?_⟩
    have hc : hd ∈ sortByLe stdLe (c :: cs) := by
      rw [hs]; exact List.mem_cons_self hd tl
    exact (sortByLe_mem stdLe hd (c :: cs)).mp hc

lemma candidatesFrom_getElem? :
    ∀ (l : List (KeyState × Bool)) (j i : Nat) (k : KeyState),
      (i, k) ∈ candidatesFrom j l →
      ∃ d, i = j + d ∧ l[d]? = some (k, true) := by
  intro l
  induction l with
  | nil => intro j i k h; simp [candidatesFrom] at h
  | cons p rest ih =>
    intro j i k h
    rcases p with ⟨k0, b⟩
    simp only [candidatesFrom] at h
    by_cases hb : b = true
    · subst hb
      rw [if_pos rfl] at h
      rcases List.mem_cons.mp h with he | hm
      · rw [Prod.mk.injEq] at he
        obtain ⟨hi, hk⟩ := he
        subst hi
        subst hk
        exact ⟨0, by omega, by simp⟩
      · obtain ⟨d, hd, hg⟩ := ih (j + 1) i k hm
        exact ⟨d + 1, by omega, by simpa using hg⟩
    · rw [if_neg hb] at h
      obtain ⟨d, hd, hg⟩ := ih (j + 1) i k h
      exact ⟨d + 1, by omega, by simpa using hg⟩

lemma scanKey_lastUsed (now : Nat) (k : KeyState) :
    ((scanKey now k).1).lastUsed = k.lastUsed := by
  simp only [scanKey, isOnCooldown]
  split_ifs <;> rfl

/-- Claim C8 (corrected): when the strategy path of `get_key` is taken
(non-empty candidate list) the selected key — at its registry index — has
`lastUsed` set to now in the returned state; but a key produced by the
empty-eligible fallback is returned with every key's `lastUsed` unchanged:
the fallback branch does not touch `lastUsed`. -/
theorem get_key_lastUsed_semantics (now : Nat) (m1 : Manager)
    (c : Nat × KeyState) (cs : List (Nat × KeyState))
    (h1 : candidatesOf (cooldownScan now m1.keys) = c :: cs) (m2 : Manager)
    (h2 : candidatesOf (cooldownScan now m2.keys) = []) :
    (∃ i k, standardNext (c :: cs) = some (i, k) ∧
      (get_key now m1).1 = some k.key ∧
      (((get_key now m1).2).keys)[i]? = some { k with lastUsed := now }) ∧
    ((get_key now m2).2).keys.map (fun k => k.lastUsed) =
      m2.keys.map (fun k => k.lastUsed) := by
  constructor
  · obtain ⟨sel, hsel, hmem⟩ := standardNext_mem c cs
    obtain ⟨d, hd, hg⟩ := candidatesFrom_getElem? (cooldownScan now m1.keys) 0
      sel.1 sel.2 (by rw [← h1] at hmem; exact (Prod.mk.eta ▸ hmem))
    have hd0 : sel.1 = d := by omega
    have hlen : sel.1 < (cooldownScan now m1.keys).length := by
      rw [hd0]
      exact (List.getElem?_eq_some_iff.mp hg).1
    have hkeys : ((cooldownScan now m1.keys).map Prod.fst)[sel.1]? =
        some sel.2 := by
      rw [List.getElem?_map, hd0, hg]
      rfl
    refine ⟨sel.1, sel.2, by rw [Prod.mk.eta]; exact hsel, ?_, ?_⟩
    · simp only [get_key, get_key_core, h1, hsel]
    · simp only [get_key, get_key_core, h1, hsel]
      exact List.getElem?_set_self (by simpa using hlen)
  · simp only [get_key, get_key_core, h2]
    have hmap : ∀ (l : List KeyState),
        ((l.map (scanKey now)).map Prod.fst).map (fun k => k.lastUsed) =
          l.map (fun k => k.lastUsed) := by
      intro l
      induction l with
      | nil => rfl
      | cons x xs ihl => simp [ihl, scanKey_lastUsed]
    split
    · simpa [cooldownScan] using hmap m2.keys
    · simpa [cooldownScan] using hmap m2.keys

/-- Witness for C8's amended theorem: a fresh one-key registry takes the
strategy path and gets `lastUsed := 2000`; the cooling registry takes the
fallback path and keeps `lastUsed = 0`. -/
theorem get_key_lastUsed_semantics_witness :
    (∃ i k, standardNext [(0, initKey "A" 1 "default")] = some (i, k) ∧
      (get_key 2000 oneKeyMgr).1 = some k.key ∧
      (((get_key 2000 oneKeyMgr).2).keys)[i]? = some { k with lastUsed := 2000 }) ∧
    ((get_key 2000 coolingMgr).2).keys.map (fun k => k.lastUsed) =
      coolingMgr.keys.map (fun k => k.lastUsed) :=
  get_key_lastUsed_semantics 2000 oneKeyMgr (0, initKey "A" 1 "default") []
    (by decide) coolingMgr (by decide)

lemma candidatesFrom_eq_nil {l : List (KeyState × Bool)}
    (h : ∀ x ∈ l, x.2 = false) : ∀ j, candidatesFrom j l = [] := by
  induction l with
  | nil => intro j; rfl
  | cons p rest ih =>
    intro j
    have hp : p.2 = false := h p (List.mem_cons_self p rest)
    simp only [candidatesFrom]
    rw [if_neg (by rw [hp]; simp)]
    exact ih (fun x hx => h x (List.mem_cons_of_mem p hx)) (j + 1)

lemma cooldownScanProvider_all_false (now : Nat) (p : String)
    (keys : List KeyState)
    (hcool : ∀ k ∈ keys, k.provider = p → (isOnCooldown now k).1 = true) :
    ∀ x ∈ cooldownScanProvider now p keys, x.2 = false := by
  intro x hx
  simp only [cooldownScanProvider, List.mem_map] at hx
  obtain ⟨k, hk, hfx⟩ := hx
  by_cases hprov : k.provider = p
  · rw [if_pos hprov] at hfx
    simp only [scanKey] at hfx
    by_cases hdead : k.circuitState = CircuitState.DEAD
    · rw [if_pos hdead] at hfx
      rw [← hfx]
    · rw [if_neg hdead] at hfx
      rw [← hfx]
      simp [hcool k hk hprov]
  · rw [if_neg hprov] at hfx
    rw [← hfx]

/-- Claim C10 (confirmed): the closest-to-recovery fallback applies only to
unfiltered selection — when every key tagged with provider `p` is on
cooldown (and non-DEAD keys for `p` exist), `get_key_by_provider p` returns
nothing rather than the oldest-`failedAt` key, so an `execute` call with
`options.provider = p` invokes the user fallback (reason "all keys
exhausted") when one is configured and otherwise fails with
`AllKeysExhausted`, without ever invoking `fn`. -/
theorem provider_selection_has_no_recovery_fallback (now : Nat) (p : String)
    (m : Manager) (fb : Bool) (oracle : Nat → String → Option PyError)
    (dur : Nat → Nat) (opts : ExecuteOptions) (hp : opts.provider = some p)
    (hpne : p ≠ "")
    (hcool : ∀ k ∈ m.keys, k.provider = p →
      k.circuitState ≠ CircuitState.DEAD ∧ (isOnCooldown now k).1 = true)
    (_hex : ∃ k ∈ m.keys, k.provider = p ∧
      k.circuitState ≠ CircuitState.DEAD) :
    (get_key_by_provider now p m).1 = none ∧
    (executeWithRetry fb oracle dur (fun _ => now) opts m).calls = [] ∧
    (executeWithRetry fb oracle dur (fun _ => now) opts m).outcome =
      (if fb = true then ExecOutcome.fallbackUsed "all keys exhausted"
       else ExecOutcome.allKeysExhausted) := by
  have hnil : candidatesOf (cooldownScanProvider now p m.keys) = [] :=
    candidatesFrom_eq_nil
      (cooldownScanProvider_all_false now p m.keys
        (fun k hk hprov => (hcool k hk hprov).2)) 0
  have hnone : (get_key_by_provider now p m).1 = none := by
    simp only [get_key_by_provider, get_key_by_provider_core, hnil]
  have hsel : (selectKey now opts m).1 = none := by
    simp only [selectKey, hp]
    rw [if_neg hpne]
    exact hnone
  refine ⟨hnone, ?_, ?_⟩ <;>
    · simp only [executeWithRetry, executeRetryAux, hsel]
      split <;> rfl

/-- Witness for C10: one non-DEAD key for provider `g`, failed at t=1000 and
on cooldown at t=2000, no fallback configured: the call fails with
`AllKeysExhausted` and `fn` is never invoked. -/
theorem provider_selection_has_no_recovery_fallback_witness :
    (get_key_by_provider 2000 "g" coolingProviderMgr).1 = none ∧
    (executeWithRetry false (fun _ _ => none) (fun _ => 0) (fun _ => 2000)
      { provider := some "g" } coolingProviderMgr).calls = [] ∧
    (executeWithRetry false (fun _ _ => none) (fun _ => 0) (fun _ => 2000)
        { provider := some "g" } coolingProviderMgr).outcome =
      (if false = true then ExecOutcome.fallbackUsed "all keys exhausted"
       else ExecOutcome.allKeysExhausted) :=
  provider_selection_has_no_recovery_fallback 2000 "g" coolingProviderMgr
    false (fun _ _ => none) (fun _ => 0) { provider := some "g" } rfl
    (by decide) (by decide)
    ⟨{ initKey "A" 1 "g" with failedAt := some 1000 }, by decide, by decide⟩

end SCX
